import Mathlib

/-!
Verification development for the DataCollect voter-flow client.

The definitions below are a shallow embedding of the TypeScript sources:

* `src/services/vote.service.ts` — card-number validation/formatting/masking,
  file validation, image-compression dimension computation;
* `src/services/api.service.ts`  — the API adapter and its error mapping;
* `src/types/index.ts`           — data types and the Pinia vote store
  (modelled as a state machine whose asynchronous results are oracle inputs).

JavaScript strings are modelled as `List Char`.  Character classes of the
regexes used by the source (`\s`, `\d`, `[^V0-9]`, case mapping) are modelled
on the ASCII fragment, which covers every literal the source manipulates.
-/

/-! ## JS string primitives -/

/-- The regex class `\s` (ASCII fragment: space, tab, LF, VT, FF, CR). -/
def jsIsWs (c : Char) : Bool :=
  c = ' ' || c = '\t' || c = '\n' || c = '\x0b' || c = '\x0c' || c = '\r'

/-- The regex class `\d`, i.e. `[0-9]`. -/
def jsIsDigit (c : Char) : Bool :=
  c ∈ ['0', '1', '2', '3', '4', '5', '6', '7', '8', '9']

/-- `String.prototype.trim`: strip whitespace from both ends. -/
def jsTrim (cs : List Char) : List Char :=
  ((cs.dropWhile jsIsWs).reverse.dropWhile jsIsWs).reverse

/-- ASCII fragment of `String.prototype.toUpperCase`. -/
def jsUpperChar (c : Char) : Char :=
  if 'a' ≤ c ∧ c ≤ 'z' then Char.ofNat (c.toNat - 32) else c

/-- `String.prototype.toUpperCase` over a JS string. -/
def jsToUpper (cs : List Char) : List Char := cs.map jsUpperChar

/-- ASCII fragment of `String.prototype.toLowerCase`. -/
def jsLowerChar (c : Char) : Char :=
  if 'A' ≤ c ∧ c ≤ 'Z' then Char.ofNat (c.toNat + 32) else c

/-- `String.prototype.toLowerCase` over a JS string. -/
def jsToLower (cs : List Char) : List Char := cs.map jsLowerChar

/-- `replace(/\s/g, '')`: remove every whitespace character. -/
def stripWs (cs : List Char) : List Char := cs.filter (fun c => !jsIsWs c)

/-- JS `a || b` on strings: the empty string is falsy. -/
def jsTruthyOr (a : String) (b : String) : String :=
  if a = "" then b else a

/-- JS `a || b` where `a` may be `undefined`/`null` (modelled as `none`). -/
def jsTruthyOrOpt (a : Option String) (b : String) : String :=
  match a with
  | some s => jsTruthyOr s b
  | none => b

/-! ## Data model (`src/types/index.ts`) -/

/-- `FileInfo` of `types/index.ts`.  The `sizeInMB` display string
(`(size / (1024*1024)).toFixed(2)`) is floating-point formatting, is used by
no claim, and is not modelled. -/
structure FileInfo where
  name : List Char
  size : Nat
  type : String
deriving DecidableEq, Repr

/-- `ValidationResult` of `types/index.ts`. -/
structure ValidationResult where
  isValid : Bool
  errors : List String
  cleanValue : Option (List Char)
  fileInfo : Option FileInfo
deriving DecidableEq, Repr

/-- A DOM `File` as the source uses it: `name`, `size` (bytes), `type` (MIME). -/
structure JsFile where
  name : List Char
  size : Nat
  type : String
deriving DecidableEq, Repr

/-- Internal `Candidate` shape of `types/index.ts`. -/
structure Candidate where
  id : Nat
  name : String
  party : String
  photo : String
  program : String
  biography : Option String
deriving DecidableEq, Repr

/-! ## Card-number validator (`vote.service.ts`, `validateCardNumber`) -/

def msgVoterNumberRequired : String := "Le numéro d\x27électeur est requis"

def msgCardFormat : String := "Le numéro doit être au format: V 0074 2666 98"

def msgCardChars : String :=
  "Le numéro d\x27électeur ne doit contenir que des lettres et des chiffres"

def msgCardLength : String :=
  "Le numéro doit contenir exactement 10 chiffres après le V"

/-- One step of matching `\s?`: consume a single whitespace character when
present.  (The regex engine's greedy-with-backtracking behaviour coincides
with this deterministic form because `\d` and `\s` are disjoint.) -/
def eatSpaceOpt (cs : List Char) : List Char :=
  match cs with
  | [] => []
  | c :: rest => if jsIsWs c then rest else c :: rest

/-- Match `\d{n}`: returns the remainder when the next `n` characters are
digits. -/
def takeDigits : Nat → List Char → Option (List Char)
  | 0, cs => some cs
  | _ + 1, [] => none
  | n + 1, c :: cs => if jsIsDigit c then takeDigits n cs else none

/-- The test of `/^V\s?\d{4}\s?\d{4}\s?\d{2}$/`. -/
def strictCardPattern (cs : List Char) : Bool :=
  match cs with
  | [] => false
  | c :: rest =>
    if c = 'V' then
      match takeDigits 4 (eatSpaceOpt rest) with
      | none => false
      | some r2 =>
        match takeDigits 4 (eatSpaceOpt r2) with
        | none => false
        | some r4 =>
          match takeDigits 2 (eatSpaceOpt r4) with
          | none => false
          | some r6 => r6.isEmpty
    else false

/-- `replace(/[V\s]/g, '')`: remove the letter `V` and all whitespace. -/
def removeVWs (cs : List Char) : List Char :=
  cs.filter (fun c => !(c = 'V' || jsIsWs c))

/-- `validateCardNumber` of `vote.service.ts` (strict profile). -/
def validateCardNumber (cardNumber : List Char) : ValidationResult :=
  if cardNumber.isEmpty then
    { isValid := false, errors := [msgVoterNumberRequired], cleanValue := none, fileInfo := none }
  else
    let cleanNumber := jsToUpper (jsTrim cardNumber)
    if strictCardPattern cleanNumber = false then
      { isValid := false, errors := [msgCardFormat], cleanValue := none, fileInfo := none }
    else
      let digitsOnly := removeVWs cleanNumber
      if digitsOnly.isEmpty || !digitsOnly.all jsIsDigit then
        { isValid := false, errors := [msgCardChars], cleanValue := none, fileInfo := none }
      else if digitsOnly.length ≠ 10 then
        { isValid := false, errors := [msgCardLength], cleanValue := none, fileInfo := none }
      else
        { isValid := true, errors := [], cleanValue := some (stripWs cleanNumber), fileInfo := none }

/-! ## File validator (`vote.service.ts`, `validateCardFile`) -/

def msgFileRequired : String := "Veuillez télécharger votre carte d\x27électeur"

def msgFileTooLarge : String := "Le fichier est trop volumineux (maximum 5MB)"

def msgFileType : String := "Format de fichier non autorisé (JPG, PNG ou WEBP uniquement)"

def msgFileExtension : String := "Extension de fichier non autorisée"

/-- The suffix of a string starting at its last `'.'`, or `none` when it has
no dot. -/
def fromLastDot : List Char → Option (List Char)
  | [] => none
  | c :: rest =>
    match fromLastDot rest with
    | some s => some s
    | none => if c = '.' then some (c :: rest) else none

/-- `file.name.toLowerCase().substring(file.name.lastIndexOf('.'))`.
When the name has no dot, `lastIndexOf` gives `-1` and `substring(-1)`
clamps to `0`, yielding the whole lowercased name. -/
def fileExtensionOf (name : List Char) : List Char :=
  match fromLastDot (jsToLower name) with
  | some s => s
  | none => jsToLower name

def allowedMimeTypes : List String := ["image/jpeg", "image/png", "image/webp"]

def allowedExtensions : List (List Char) :=
  [".jpg".toList, ".jpeg".toList, ".png".toList, ".webp".toList]

/-- `FILE_UPLOAD.MAX_SIZE` of `utils/constants.ts`. -/
def fileUploadMaxSize : Nat := 5 * 1024 * 1024

/-- `validateCardFile` of `vote.service.ts`. -/
def validateCardFile (file : Option JsFile) : ValidationResult :=
  match file with
  | none =>
    { isValid := false, errors := [msgFileRequired], cleanValue := none, fileInfo := none }
  | some f =>
    let sizeErrors := if f.size > fileUploadMaxSize then [msgFileTooLarge] else []
    let typeErrors := if f.type ∈ allowedMimeTypes then [] else [msgFileType]
    let extErrors := if fileExtensionOf f.name ∈ allowedExtensions then [] else [msgFileExtension]
    let errors := sizeErrors ++ typeErrors ++ extErrors
    { isValid := errors.isEmpty, errors := errors, cleanValue := none,
      fileInfo := some { name := f.name, size := f.size, type := f.type } }

/-! ## Input formatter and mask (`vote.service.ts`) -/

/-- `input.replace(/[^V0-9]/gi, '').toUpperCase()`: keep `V`/`v` and digits,
then uppercase. -/
def jsCleanCard (input : List Char) : List Char :=
  jsToUpper (input.filter (fun c => c = 'V' || c = 'v' || jsIsDigit c))

/-- The grouped rendering of `formatCardNumberInput`: `V ` followed by the
digits in 4-4-2 chunks (template literals of the source). -/
def groupDigits (limitedDigits : List Char) : List Char :=
  if limitedDigits.length ≤ 4 then
    'V' :: ' ' :: limitedDigits
  else if limitedDigits.length ≤ 8 then
    'V' :: ' ' :: (limitedDigits.take 4 ++ ' ' :: limitedDigits.drop 4)
  else
    'V' :: ' ' :: (limitedDigits.take 4 ++ ' ' :: ((limitedDigits.drop 4).take 4 ++ ' ' :: limitedDigits.drop 8))

/-- `formatCardNumberInput` of `vote.service.ts`.  The source's single
recursive call `formatCardNumberInput('V' + cleaned)` is inlined: since
`cleaned` is already clean, re-cleaning `'V' + cleaned` yields a string that
starts with `'V'`, so the recursive call reduces in one step to the
`startsWith('V')` branch applied to `jsCleanCard ('V' :: cleaned)`. -/
def formatCardNumberInput (input : List Char) : List Char :=
  let cleaned := jsCleanCard input
  if cleaned.head? = some 'V' then
    groupDigits ((cleaned.drop 1).take 10)
  else if cleaned.length > 0 then
    groupDigits (((jsCleanCard ('V' :: cleaned)).drop 1).take 10)
  else
    cleaned

/-- `maskCardNumber` of `vote.service.ts`. -/
def maskCardNumber (cardNumber : List Char) : List Char :=
  if cardNumber.isEmpty || cardNumber.length < 6 then
    cardNumber
  else
    let cleanNumber := stripWs cardNumber
    if cleanNumber.head? = some 'V' ∧ cleanNumber.length = 11 then
      let digits := cleanNumber.drop 1
      'V' :: ' ' :: (digits.take 4 ++ ' ' :: ((digits.drop 4).take 4 ++ ' ' :: digits.drop 8))
    else
      cardNumber.take 3
        ++ List.replicate (cardNumber.length - 6) '*'
        ++ cardNumber.drop (cardNumber.length - 3)

/-! ## Image compression dimensions (`vote.service.ts`, `compressImage`) -/

/-- The options object of `compressImage`; `quality` and `mimeType` do not
affect the rendered dimensions. -/
structure CompressOptions where
  maxWidth : Option Nat
  maxHeight : Option Nat
  quality : Option ℚ
  mimeType : Option String

/-- The target-dimension computation of `compressImage`: defaults 1200,
`ratio = Math.min(1, maxWidth/width, maxHeight/height)`, then
`Math.floor(width*ratio) × Math.floor(height*ratio)` (the canvas size).
The browser guarantees strictly positive natural dimensions for a decoded
image. -/
def compressImageTargetSize (naturalWidth naturalHeight : Nat)
    (options : CompressOptions) : Nat × Nat :=
  let maxWidth : ℚ := (options.maxWidth.getD 1200 : Nat)
  let maxHeight : ℚ := (options.maxHeight.getD 1200 : Nat)
  let widthR : ℚ := maxWidth / (naturalWidth : ℚ)
  let heightR : ℚ := maxHeight / (naturalHeight : ℚ)
  let r : ℚ := min 1 (min widthR heightR)
  (Int.toNat ⌊(naturalWidth : ℚ) * r⌋, Int.toNat ⌊(naturalHeight : ℚ) * r⌋)

/-! ## API adapter (`api.service.ts`) -/

/-- `ApiError` of `types/index.ts`; `data` is the raw payload (`any`),
typed here by the operation's response-body type. -/
structure ApiError (β : Type) where
  status : Nat
  message : String
  data : Option β
deriving DecidableEq, Repr

/-- The `response` property carried by an axios-style caught error object. -/
structure CaughtResp (β : Type) where
  status : Nat
  data : Option β
deriving DecidableEq, Repr

/-- A caught JS exception as `handleApiError` inspects it: an optional
`response` property and an optional `message` property. -/
structure Caught (β : Type) where
  response : Option (CaughtResp β)
  message : Option String
deriving DecidableEq, Repr

/-- `handleApiError` of `api.service.ts`.  `dataMessage` models the dynamic
access `error.response?.data?.message` on the untyped payload.  JS
`response?.status || 0` equals the status when a response is present (a
status of `0` maps to `0` either way) and `0` otherwise. -/
def handleApiError {β : Type} (dataMessage : β → Option String)
    (error : Caught β) : ApiError β :=
  { status :=
      match error.response with
      | some r => r.status
      | none => 0
  , message :=
      jsTruthyOrOpt ((error.response.bind (fun r => r.data)).bind dataMessage)
        (jsTruthyOrOpt error.message "Erreur inconnue")
  , data := error.response.bind (fun r => r.data) }

/-- `Response.ok` of the fetch API: status in [200, 299]. -/
def jsOk (status : Nat) : Bool :=
  decide (200 ≤ status) && decide (status < 300)

/-- Outcome of a `fetch` call: either the promise rejects with no HTTP
response (network failure), or an HTTP response arrives whose JSON body has
already been parsed into `β`. -/
inductive FetchOutcome (β : Type) where
  | networkError (message : String)
  | response (status : Nat) (statusText : String) (body : β)
deriving DecidableEq, Repr

/-- A remote candidate record (`ApiCandidate`). -/
structure ApiCandidate where
  id : Nat
  name : String
  party : String
  photo_url : String
  order_number : Nat
  description : Option String
deriving DecidableEq, Repr

/-- The remote → internal candidate mapping of `getCandidates` /
`getCandidateById` (`photo = photo_url`, `program = description || ''`). -/
def mapApiCandidate (candidate : ApiCandidate) : Candidate :=
  { id := candidate.id
  , name := candidate.name
  , party := candidate.party
  , photo := candidate.photo_url
  , program := jsTruthyOrOpt candidate.description ""
  , biography := candidate.description }

/-- Body of `GET /candidates` (`CandidatesApiResponse`). -/
structure CandidatesBody where
  success : Bool
  data : List ApiCandidate
  generated_at : String
deriving DecidableEq, Repr

/-- The payload of `getCandidates` has no `message` property, so the dynamic
access `data?.message` yields `undefined`. -/
def candidatesBodyMessage : CandidatesBody → Option String := fun _ => none

/-- `apiService.getCandidates`.  On a non-OK status the source throws a plain
`Error` carrying only a message, so the caught error has no `response`
property. -/
def getCandidates (fetchResult : FetchOutcome CandidatesBody) :
    Except (ApiError CandidatesBody) (List Candidate) :=
  match fetchResult with
  | .networkError m =>
    .error (handleApiError candidatesBodyMessage { response := none, message := some m })
  | .response status _statusText body =>
    if jsOk status = false then
      .error (handleApiError candidatesBodyMessage
        { response := none, message := some "Erreur lors du chargement des candidats" })
    else
      .ok (body.data.map mapApiCandidate)

/-- Body of `GET /candidates/:id`. -/
structure CandidateByIdBody where
  data : ApiCandidate
deriving DecidableEq, Repr

def candidateByIdBodyMessage : CandidateByIdBody → Option String := fun _ => none

/-- `apiService.getCandidateById`. -/
def getCandidateById (candidateId : Nat) (fetchResult : FetchOutcome CandidateByIdBody) :
    Except (ApiError CandidateByIdBody) Candidate :=
  match fetchResult with
  | .networkError m =>
    .error (handleApiError candidateByIdBodyMessage { response := none, message := some m })
  | .response status _statusText body =>
    if jsOk status = false then
      .error (handleApiError candidateByIdBodyMessage
        { response := none, message := some "Candidat non trouvé" })
    else
      .ok (mapApiCandidate body.data)

/-- Nested voter identity of the eligibility response. -/
structure EligVoterRaw where
  full_name : String
  vote_place : String
  department : String
deriving DecidableEq, Repr

/-- `data` of `EligibilityApiResponse` (`api.service.ts`).  `voter_info` is
`Option` because the source guards it with a truthiness test. -/
structure EligData where
  eligible : Bool
  exists_in_registry : Bool
  name_matches : Bool
  has_voted : Bool
  voter_info : Option EligVoterRaw
  message : String
deriving DecidableEq, Repr

/-- Body of `POST /check-eligibility`. -/
structure EligBody where
  success : Bool
  data : EligData
deriving DecidableEq, Repr

def eligBodyMessage : EligBody → Option String := fun _ => none

/-- Mapped voter identity returned by `checkEligibility`. -/
structure VoterMapped where
  fullName : String
  votePlace : String
  department : String
deriving DecidableEq, Repr

/-- Return shape of `apiService.checkEligibility`. -/
structure EligStatus where
  eligible : Bool
  message : String
  hasVoted : Bool
  voterInfo : Option VoterMapped
deriving DecidableEq, Repr

/-- `apiService.checkEligibility`.  The request body (trimmed,
whitespace-stripped card number) does not influence the modelled outcome.
Both failure throws are plain `Error`s, so the caught error never carries a
`response` property. -/
def checkEligibility (cardNumber name : String) (fetchResult : FetchOutcome EligBody) :
    Except (ApiError EligBody) EligStatus :=
  match fetchResult with
  | .networkError m =>
    .error (handleApiError eligBodyMessage { response := none, message := some m })
  | .response status statusText body =>
    if jsOk status = false then
      .error (handleApiError eligBodyMessage
        { response := none
        , message := some ("HTTP " ++ toString status ++ ": " ++ statusText) })
    else if body.success = false then
      .error (handleApiError eligBodyMessage
        { response := none
        , message := some (jsTruthyOr body.data.message "Erreur lors de la vérification") })
    else
      .ok { eligible := body.data.eligible
          , message := body.data.message
          , hasVoted := body.data.has_voted
          , voterInfo := body.data.voter_info.map (fun v =>
              { fullName := v.full_name, votePlace := v.vote_place, department := v.department }) }

/-- Body of `POST /votes` (`VoteApiResponse`); `errors` is the optional 422
per-field map `{field: [messages]}`, kept in key insertion order. -/
structure VoteBody where
  success : Bool
  message : String
  vote_id : String
  voted_at : String
  errors : Option (List (String × List String))
deriving DecidableEq, Repr

def voteBodyMessage (body : VoteBody) : Option String := some body.message

/-- Return shape of `apiService.submitVote`. -/
structure SubmitOk where
  success : Bool
  message : String
  voteId : String
  votedAt : String
deriving DecidableEq, Repr

/-- Failures of `submitVote`: a normalized `ApiError`, or the uncaught
`TypeError` raised by `Object.values(undefined)` when a 422 body carries no
`errors` map. -/
inductive SubmitVoteError where
  | apiFailure (e : ApiError VoteBody)
  | typeErrorCrash
deriving DecidableEq, Repr

/-- `Object.values(errors).flat()`: all field messages in order. -/
def flattenFieldErrors (errors : List (String × List String)) : List String :=
  (errors.map (fun p => p.2)).flatten

/-- The `catch` block of `apiService.submitVote`: a caught error whose
`response` has status 422 is flattened into one comma-joined message; every
other caught error goes through `handleApiError`. -/
def submitVoteCatch (caught : Caught VoteBody) : Except SubmitVoteError SubmitOk :=
  match caught.response with
  | some r =>
    if r.status = 422 then
      match r.data.bind (fun b => b.errors) with
      | some fieldErrors =>
        .error (.apiFailure
          { status := 422
          , message := String.intercalate ", " (flattenFieldErrors fieldErrors)
          , data := r.data })
      | none => .error .typeErrorCrash
    else
      .error (.apiFailure (handleApiError voteBodyMessage caught))
  | none => .error (.apiFailure (handleApiError voteBodyMessage caught))

/-- `apiService.submitVote`.  On `!response.ok || !data.success` the source
throws `{response: {status, data}}`, which the catch block above inspects. -/
def submitVote (voterCardNumber voterName : String) (candidateId : Nat)
    (fetchResult : FetchOutcome VoteBody) : Except SubmitVoteError SubmitOk :=
  match fetchResult with
  | .networkError m =>
    submitVoteCatch { response := none, message := some m }
  | .response status _statusText body =>
    if jsOk status = false || body.success = false then
      submitVoteCatch
        { response := some { status := status, data := some body }, message := none }
    else
      .ok { success := body.success, message := body.message
          , voteId := body.vote_id, votedAt := body.voted_at }

/-! ## Vote store (`types/index.ts`, `useVoteStore`)

Each asynchronous store action is modelled as an atomic transition whose
remote result is an oracle parameter (the page is single-threaded and the
spec serializes actions).  Two ghost history flags record, for the
invariant, whether an eligible verification and a successful submission
response have occurred since the last reset; they mirror no code state and
are read by no transition. -/

/-- `VoteStep` of `types/index.ts`. -/
inductive VoteStep where
  | VERIFICATION
  | VOTE
  | CONFIRMATION
  | SUCCESS
deriving DecidableEq, Repr

/-- The nine `ref`s of `useVoteStore`. -/
structure VoteState where
  currentStep : VoteStep
  voterCardNumber : String
  voterCardImage : Option JsFile
  candidates : List Candidate
  selectedCandidateId : Option Nat
  confirmationNumber : String
  isLoading : Bool
  error : Option String
  isEligible : Option Bool
deriving DecidableEq, Repr

/-- Ghost history flags (not part of the store's state). -/
structure GhostFlags where
  verifiedEligible : Bool
  submitSucceeded : Bool
deriving DecidableEq, Repr

/-- Store state paired with the ghost history. -/
structure StoreWorld where
  state : VoteState
  ghost : GhostFlags
deriving DecidableEq, Repr

/-- Result of an awaited remote call as the store's `catch` sees it: a value,
or a thrown error whose `message` property is read. -/
inductive Outcome (α : Type) where
  | ok (value : α)
  | err (message : String)
deriving DecidableEq, Repr

/-- Getter `isVoterVerified`. -/
def isVoterVerified (s : VoteState) : Bool :=
  decide (s.voterCardNumber ≠ "") && s.voterCardImage.isSome

/-- Getter `canSubmitVote`: verified voter data, candidate selected, not
loading, eligibility strictly `true`. -/
def canSubmitVote (s : VoteState) : Bool :=
  isVoterVerified s && s.selectedCandidateId.isSome && !s.isLoading
    && decide (s.isEligible = some true)

/-- Store action `checkEligibility` (also invoked by `saveVerificationData`):
returns the updated state and the boolean the source returns. -/
def storeCheckEligibility (s : VoteState) (result : Outcome EligStatus) :
    VoteState × Bool :=
  match result with
  | .ok r =>
    let s1 := { s with isEligible := some r.eligible }
    if r.eligible = false then
      ({ s1 with error := some r.message }, false)
    else
      (s1, true)
  | .err m =>
    ({ s with error := some (jsTruthyOr m "Erreur lors de la vérification d\x27éligibilité")
            , isEligible := some false }, false)

/-- Store action `saveVerificationData`: set loading, clear error, check
eligibility; on eligible store the card number and image and advance to
`VOTE`; otherwise record the thrown message; always clear loading. -/
def saveVerificationData (w : StoreWorld) (cardNum : String) (cardImg : JsFile)
    (result : Outcome EligStatus) : StoreWorld :=
  let s0 := { w.state with isLoading := true, error := none }
  let che := storeCheckEligibility s0 result
  if che.2 then
    { state := { che.1 with voterCardNumber := cardNum
                          , voterCardImage := some cardImg
                          , currentStep := .VOTE
                          , isLoading := false }
    , ghost := { w.ghost with verifiedEligible := true } }
  else
    { state := { che.1 with
        error := some "Ce numéro de carte a déjà voté ou n\x27est pas éligible"
      , isLoading := false }
    , ghost := w.ghost }

/-- Store action `loadCandidates`. -/
def loadCandidates (w : StoreWorld) (result : Outcome (List Candidate)) : StoreWorld :=
  let s0 := { w.state with isLoading := true, error := none }
  match result with
  | .ok candidatesList =>
    { w with state := { s0 with candidates := candidatesList, isLoading := false } }
  | .err m =>
    { w with state := { s0 with
        error := some (jsTruthyOr m "Erreur lors du chargement des candidats")
      , isLoading := false } }

/-- Store action `selectCandidate`. -/
def selectCandidate (w : StoreWorld) (candidateId : Nat) : StoreWorld :=
  { w with state := { w.state with selectedCandidateId := some candidateId, error := none } }

/-- Store action `goToConfirmation`: advance only when a candidate id is
selected, else set an error. -/
def goToConfirmation (w : StoreWorld) : StoreWorld :=
  match w.state.selectedCandidateId with
  | some _ =>
    { w with state := { w.state with currentStep := .CONFIRMATION, error := none } }
  | none =>
    { w with state := { w.state with error := some "Veuillez sélectionner un candidat" } }

/-- Store action `backToVote` (unconditional). -/
def backToVote (w : StoreWorld) : StoreWorld :=
  { w with state := { w.state with currentStep := .VOTE, error := none } }

/-- Store action `submitVote`: guarded by `canSubmitVote`; on a successful
response store the vote id and advance to `SUCCESS`; otherwise record the
message; always clear loading. -/
def storeSubmitVote (w : StoreWorld) (result : Outcome SubmitOk) : StoreWorld :=
  if canSubmitVote w.state = false then
    { w with state := { w.state with error := some "Impossible de soumettre le vote" } }
  else
    let s0 := { w.state with isLoading := true, error := none }
    match result with
    | .ok r =>
      if r.success then
        { state := { s0 with confirmationNumber := r.voteId
                           , currentStep := .SUCCESS
                           , isLoading := false }
        , ghost := { w.ghost with submitSucceeded := true } }
      else
        { w with state := { s0 with
            error := some (jsTruthyOr r.message "Soumission du vote échouée")
          , isLoading := false } }
    | .err m =>
      { w with state := { s0 with
          error := some (jsTruthyOr m "Erreur lors de la soumission du vote")
        , isLoading := false } }

/-- Store action `resetVote`: back to `VERIFICATION`, clear every ballot
field, keep the candidate cache ("On garde les candidats en cache"). -/
def resetVote (w : StoreWorld) : StoreWorld :=
  { state := { currentStep := .VERIFICATION
             , voterCardNumber := ""
             , voterCardImage := none
             , candidates := w.state.candidates
             , selectedCandidateId := none
             , confirmationNumber := ""
             , isLoading := false
             , error := none
             , isEligible := none }
  , ghost := { verifiedEligible := false, submitSucceeded := false } }

/-- Store action `setError`. -/
def setError (w : StoreWorld) (message : String) : StoreWorld :=
  { w with state := { w.state with error := some message } }

/-- Store action `clearError`. -/
def clearError (w : StoreWorld) : StoreWorld :=
  { w with state := { w.state with error := none } }

/-- Store action `setStep`: unconditional manual navigation. -/
def setStep (w : StoreWorld) (step : VoteStep) : StoreWorld :=
  { w with state := { w.state with currentStep := step } }

/-- The store actions, with remote results as oracle parameters. -/
inductive StoreAction where
  | checkEligibilityAct (cardNum : String) (result : Outcome EligStatus)
  | saveVerificationDataAct (cardNum : String) (cardImg : JsFile) (result : Outcome EligStatus)
  | loadCandidatesAct (result : Outcome (List Candidate))
  | selectCandidateAct (candidateId : Nat)
  | goToConfirmationAct
  | backToVoteAct
  | submitVoteAct (result : Outcome SubmitOk)
  | resetVoteAct
  | setErrorAct (message : String)
  | clearErrorAct
  | setStepAct (step : VoteStep)

/-- One store action applied to the world. -/
def applyAction (w : StoreWorld) (action : StoreAction) : StoreWorld :=
  match action with
  | .checkEligibilityAct _cardNum result =>
    { w with state := (storeCheckEligibility w.state result).1 }
  | .saveVerificationDataAct cardNum cardImg result =>
    saveVerificationData w cardNum cardImg result
  | .loadCandidatesAct result => loadCandidates w result
  | .selectCandidateAct candidateId => selectCandidate w candidateId
  | .goToConfirmationAct => goToConfirmation w
  | .backToVoteAct => backToVote w
  | .submitVoteAct result => storeSubmitVote w result
  | .resetVoteAct => resetVote w
  | .setErrorAct message => setError w message
  | .clearErrorAct => clearError w
  | .setStepAct step => setStep w step

/-- The store's initial state. -/
def initialStore : StoreWorld :=
  { state := { currentStep := .VERIFICATION
             , voterCardNumber := ""
             , voterCardImage := none
             , candidates := []
             , selectedCandidateId := none
             , confirmationNumber := ""
             , isLoading := false
             , error := none
             , isEligible := none }
  , ghost := { verifiedEligible := false, submitSucceeded := false } }

/-- States reachable by any sequence of store actions. -/
inductive Reachable : StoreWorld → Prop where
  | init : Reachable initialStore
  | step (w : StoreWorld) (a : StoreAction) (h : Reachable w) : Reachable (applyAction w a)

/-- Actions other than the unconditional navigations `setStep` and
`backToVote`. -/
def isGuardedAction : StoreAction → Bool
  | .setStepAct _ => false
  | .backToVoteAct => false
  | _ => true

/-- States reachable without the unconditional navigations. -/
inductive ReachableGuarded : StoreWorld → Prop where
  | init : ReachableGuarded initialStore
  | step (w : StoreWorld) (a : StoreAction) (h : ReachableGuarded w)
      (ha : isGuardedAction a = true) : ReachableGuarded (applyAction w a)

/-- The step invariant that actually holds on the guarded transition system:
`VOTE` requires a stored image and an eligible verification since the last
reset; `CONFIRMATION` requires a selected candidate id; `SUCCESS` requires a
successful submission response since the last reset. -/
def voteStepInvariant (w : StoreWorld) : Prop :=
  (w.state.currentStep = .VOTE →
    w.state.voterCardImage ≠ none ∧ w.ghost.verifiedEligible = true)
  ∧ (w.state.currentStep = .CONFIRMATION → w.state.selectedCandidateId ≠ none)
  ∧ (w.state.currentStep = .SUCCESS → w.ghost.submitSucceeded = true)

/-- The membership clause of the spec's Confirmation invariant: the selected
candidate id occurs in the cached candidate list. -/
def selectedIdInCache (w : StoreWorld) : Prop :=
  ∀ id, w.state.selectedCandidateId = some id → ∃ c ∈ w.state.candidates, c.id = id

/-- The full invariant claimed by the spec, over the raw store state and the
ghost history: Vote requires verified eligible data, Confirmation requires a
selected id present in the cache, Success requires a successful submission
response. -/
def claimedInvariant (w : StoreWorld) : Prop :=
  (w.state.currentStep = .VOTE →
    w.state.voterCardImage ≠ none ∧ w.ghost.verifiedEligible = true)
  ∧ (w.state.currentStep = .CONFIRMATION →
    w.state.selectedCandidateId ≠ none ∧ selectedIdInCache w)
  ∧ (w.state.currentStep = .SUCCESS → w.ghost.submitSucceeded = true)

/-! ## Helper lemmas on the JS character classes -/

theorem jsIsDigit_cases {c : Char} (h : jsIsDigit c = true) :
    c = '0' ∨ c = '1' ∨ c = '2' ∨ c = '3' ∨ c = '4'
    ∨ c = '5' ∨ c = '6' ∨ c = '7' ∨ c = '8' ∨ c = '9' := by
  simpa [jsIsDigit] using h

theorem jsIsWs_of_digit {c : Char} (h : jsIsDigit c = true) : jsIsWs c = false := by
  rcases jsIsDigit_cases h with rfl | rfl | rfl | rfl | rfl | rfl | rfl | rfl | rfl | rfl <;> decide

theorem digit_keep {c : Char} (h : jsIsDigit c = true) :
    (!(c = 'V' || jsIsWs c)) = true := by
  rcases jsIsDigit_cases h with rfl | rfl | rfl | rfl | rfl | rfl | rfl | rfl | rfl | rfl <;> decide

theorem jsUpperChar_digit {c : Char} (h : jsIsDigit c = true) : jsUpperChar c = c := by
  rcases jsIsDigit_cases h with rfl | rfl | rfl | rfl | rfl | rfl | rfl | rfl | rfl | rfl <;> decide

theorem cardKeep_digit {c : Char} (h : jsIsDigit c = true) :
    (c = 'V' || c = 'v' || jsIsDigit c) = true := by
  simp [h]

theorem map_upper_digits {d : List Char} (hd : ∀ c ∈ d, jsIsDigit c = true) :
    d.map jsUpperChar = d := by
  induction d with
  | nil => rfl
  | cons c t ih =>
    simp only [List.map_cons, jsUpperChar_digit (hd c (by simp)),
      ih (fun x hx => hd x (by simp [hx]))]

theorem filter_of_all_true {p : Char → Bool} (l : List Char)
    (h : ∀ c ∈ l, p c = true) : l.filter p = l :=
  List.filter_eq_self.mpr h

theorem filter_of_all_false {p : Char → Bool} (l : List Char)
    (h : ∀ c ∈ l, p c = false) : l.filter p = [] := by
  induction l with
  | nil => rfl
  | cons c t ih =>
    simp only [List.filter_cons, h c (by simp), Bool.false_eq_true, if_false]
    exact ih (fun x hx => h x (by simp [hx]))

theorem dropWhile_append_of_all {p : Char → Bool} {l1 l2 : List Char}
    (h : ∀ c ∈ l1, p c = true) :
    (l1 ++ l2).dropWhile p = l2.dropWhile p := by
  induction l1 with
  | nil => rfl
  | cons c t ih =>
    simp only [List.cons_append, List.dropWhile_cons, h c (by simp), if_true]
    exact ih (fun x hx => h x (by simp [hx]))

theorem jsTrim_sandwich (pre mid post : List Char) (x y : Char)
    (hpre : ∀ c ∈ pre, jsIsWs c = true) (hpost : ∀ c ∈ post, jsIsWs c = true)
    (hx : jsIsWs x = false) (hy : jsIsWs y = false) :
    jsTrim (pre ++ (x :: (mid ++ [y])) ++ post) = x :: (mid ++ [y]) := by
  unfold jsTrim
  have h1 : (pre ++ (x :: (mid ++ [y])) ++ post).dropWhile jsIsWs
      = x :: (mid ++ [y] ++ post) := by
    rw [List.append_assoc, dropWhile_append_of_all hpre]
    simp [List.dropWhile_cons, hx]
  rw [h1]
  have h2 : (x :: (mid ++ [y] ++ post)).reverse
      = post.reverse ++ (y :: (mid.reverse ++ [x])) := by
    simp [List.reverse_append]
  rw [h2]
  have h3 : (post.reverse ++ (y :: (mid.reverse ++ [x]))).dropWhile jsIsWs
      = y :: (mid.reverse ++ [x]) := by
    rw [dropWhile_append_of_all (fun c hc => hpost c (List.mem_reverse.mp hc))]
    simp [List.dropWhile_cons, hy]
  rw [h3]
  simp [List.reverse_append]

theorem eatSpaceOpt_ws {c : Char} (rest : List Char) (h : jsIsWs c = true) :
    eatSpaceOpt (c :: rest) = rest := by
  simp [eatSpaceOpt, h]

theorem eatSpaceOpt_keep {c : Char} (rest : List Char) (h : jsIsWs c = false) :
    eatSpaceOpt (c :: rest) = c :: rest := by
  simp [eatSpaceOpt, h]

theorem eatSpaceOpt_decomp (cs : List Char) :
    ∃ s, cs = s ++ eatSpaceOpt cs ∧ (∀ c ∈ s, jsIsWs c = true) ∧ s.length ≤ 1 := by
  match cs with
  | [] => exact ⟨[], rfl, by simp, by simp⟩
  | c :: rest =>
    by_cases hc : jsIsWs c = true
    · exact ⟨[c], by simp [eatSpaceOpt, hc], by simpa using hc, by simp⟩
    · have hc' : jsIsWs c = false := by simpa using hc
      refine ⟨[], ?_, by simp, by simp⟩
      simp [eatSpaceOpt, hc']

theorem takeDigits_prepend : ∀ (n : Nat) (d rest : List Char), d.length = n →
    (∀ c ∈ d, jsIsDigit c = true) → takeDigits n (d ++ rest) = some rest := by
  intro n
  induction n with
  | zero =>
    intro d rest hlen _
    rw [List.length_eq_zero.mp hlen]
    rfl
  | succ n ih =>
    intro d rest hlen hd
    match d with
    | [] => simp at hlen
    | c :: t =>
      simp only [List.cons_append, takeDigits, hd c (by simp), if_true]
      exact ih t rest (by simpa using hlen) (fun x hx => hd x (by simp [hx]))

theorem takeDigits_sound : ∀ (n : Nat) (cs r : List Char), takeDigits n cs = some r →
    ∃ d, cs = d ++ r ∧ d.length = n ∧ ∀ c ∈ d, jsIsDigit c = true := by
  intro n
  induction n with
  | zero =>
    intro cs r h
    refine ⟨[], ?_, rfl, by simp⟩
    simpa [takeDigits] using Option.some.inj h
  | succ n ih =>
    intro cs r h
    match cs with
    | [] => simp [takeDigits] at h
    | c :: t =>
      by_cases hc : jsIsDigit c = true
      · simp only [takeDigits, hc, if_true] at h
        obtain ⟨d, hdt, hdl, hdd⟩ := ih t r h
        refine ⟨c :: d, by simp [hdt], by simp [hdl], ?_⟩
        intro x hx
        rcases List.mem_cons.mp hx with rfl | hx
        · exact hc
        · exact hdd x hx
      · have hc' : jsIsDigit c = false := by simpa using hc
        simp [takeDigits, hc'] at h

/-! ## Characterization of the strict card pattern -/

theorem strictCardPattern_sound {cs : List Char} (h : strictCardPattern cs = true) :
    ∃ s1 d1 s2 d2 s3 d3,
      cs = 'V' :: (s1 ++ (d1 ++ (s2 ++ (d2 ++ (s3 ++ d3)))))
      ∧ (∀ c ∈ s1, jsIsWs c = true) ∧ (∀ c ∈ s2, jsIsWs c = true) ∧ (∀ c ∈ s3, jsIsWs c = true)
      ∧ d1.length = 4 ∧ d2.length = 4 ∧ d3.length = 2
      ∧ (∀ c ∈ d1, jsIsDigit c = true) ∧ (∀ c ∈ d2, jsIsDigit c = true)
      ∧ (∀ c ∈ d3, jsIsDigit c = true) := by
  match cs with
  | [] => simp [strictCardPattern] at h
  | c :: rest =>
    by_cases hc : c = 'V'
    case neg => simp [strictCardPattern, hc] at h
    subst hc
    simp only [strictCardPattern, if_true] at h
    split at h
    · simp at h
    next r2 h1 =>
      split at h
      · simp at h
      next r4 h2 =>
        split at h
        · simp at h
        next r6 h3 =>
          simp only [List.isEmpty_iff] at h
          subst h
          obtain ⟨s1, hrest, hs1, _⟩ := eatSpaceOpt_decomp rest
          obtain ⟨d1, he1, hl1, hd1⟩ := takeDigits_sound 4 _ _ h1
          obtain ⟨s2, hr2, hs2, _⟩ := eatSpaceOpt_decomp r2
          obtain ⟨d2, he2, hl2, hd2⟩ := takeDigits_sound 4 _ _ h2
          obtain ⟨s3, hr4, hs3, _⟩ := eatSpaceOpt_decomp r4
          obtain ⟨d3, he3, hl3, hd3⟩ := takeDigits_sound 2 _ _ h3
          rw [List.append_nil] at he3
          refine ⟨s1, d1, s2, d2, s3, d3, ?_, hs1, hs2, hs3, hl1, hl2, hl3, hd1, hd2, hd3⟩
          rw [hrest, he1, hr2, he2, hr4, he3]

theorem removeVWs_of_pattern {cs : List Char} (h : strictCardPattern cs = true) :
    (removeVWs cs).length = 10 ∧ (removeVWs cs).all jsIsDigit = true
    ∧ (removeVWs cs).isEmpty = false := by
  obtain ⟨s1, d1, s2, d2, s3, d3, hcs, hs1, hs2, hs3, hl1, hl2, hl3, hd1, hd2, hd3⟩ :=
    strictCardPattern_sound h
  have hrV : removeVWs cs = d1 ++ (d2 ++ d3) := by
    rw [hcs]
    unfold removeVWs
    rw [List.filter_cons, if_neg (by decide), List.filter_append, List.filter_append,
        List.filter_append, List.filter_append, List.filter_append]
    rw [filter_of_all_false s1 (fun c hc => by simp [hs1 c hc]),
        filter_of_all_false s2 (fun c hc => by simp [hs2 c hc]),
        filter_of_all_false s3 (fun c hc => by simp [hs3 c hc]),
        filter_of_all_true d1 (fun c hc => digit_keep (hd1 c hc)),
        filter_of_all_true d2 (fun c hc => digit_keep (hd2 c hc)),
        filter_of_all_true d3 (fun c hc => digit_keep (hd3 c hc))]
    simp
  rw [hrV]
  have hl : (d1 ++ (d2 ++ d3)).length = 10 := by simp [hl1, hl2, hl3]
  refine ⟨hl, ?_, ?_⟩
  · simp only [List.all_append, Bool.and_eq_true, List.all_eq_true]
    exact ⟨hd1, hd2, hd3⟩
  · rcases he : d1 ++ (d2 ++ d3) with _ | ⟨x, t⟩
    · rw [he] at hl; simp at hl
    · rfl

theorem validateCardNumber_success {cs : List Char}
    (h : strictCardPattern (jsToUpper (jsTrim cs)) = true) :
    validateCardNumber cs =
      { isValid := true, errors := []
      , cleanValue := some (stripWs (jsToUpper (jsTrim cs))), fileInfo := none } := by
  have hne : cs.isEmpty = false := by
    match cs with
    | [] => simp [jsTrim, jsToUpper, strictCardPattern] at h
    | c :: t => rfl
  obtain ⟨hlen, hall, hemp⟩ := removeVWs_of_pattern h
  unfold validateCardNumber
  rw [hne]
  simp only [Bool.false_eq_true, if_false, h, hall, hemp, hlen]
  simp

theorem eatSpaceOpt_digits {s d : List Char} (r : List Char) (hs : s = [] ∨ s = [' '])
    (hd : ∀ c ∈ d, jsIsDigit c = true) (hne : d ≠ []) :
    eatSpaceOpt (s ++ (d ++ r)) = d ++ r := by
  rcases d with _ | ⟨c, t⟩
  · exact absurd rfl hne
  have hcd : jsIsWs c = false := jsIsWs_of_digit (hd c (by simp))
  rcases hs with rfl | rfl
  · simpa using eatSpaceOpt_keep (t ++ r) hcd
  · simpa using eatSpaceOpt_ws ((c :: t) ++ r) (by decide)

theorem strictCardPattern_complete
    (s1 s2 s3 d1 d2 d3 : List Char)
    (hs1 : s1 = [] ∨ s1 = [' ']) (hs2 : s2 = [] ∨ s2 = [' ']) (hs3 : s3 = [] ∨ s3 = [' '])
    (hd1 : ∀ c ∈ d1, jsIsDigit c = true) (hl1 : d1.length = 4)
    (hd2 : ∀ c ∈ d2, jsIsDigit c = true) (hl2 : d2.length = 4)
    (hd3 : ∀ c ∈ d3, jsIsDigit c = true) (hl3 : d3.length = 2) :
    strictCardPattern ('V' :: (s1 ++ (d1 ++ (s2 ++ (d2 ++ (s3 ++ d3)))))) = true := by
  have hne1 : d1 ≠ [] := by intro he; rw [he] at hl1; simp at hl1
  have hne2 : d2 ≠ [] := by intro he; rw [he] at hl2; simp at hl2
  have hne3 : d3 ≠ [] := by intro he; rw [he] at hl3; simp at hl3
  rw [show s3 ++ d3 = s3 ++ (d3 ++ []) by simp]
  have e1 := eatSpaceOpt_digits (s2 ++ (d2 ++ (s3 ++ (d3 ++ [])))) hs1 hd1 hne1
  have e2 := takeDigits_prepend 4 d1 (s2 ++ (d2 ++ (s3 ++ (d3 ++ [])))) hl1 hd1
  have e3 := eatSpaceOpt_digits (s3 ++ (d3 ++ [])) hs2 hd2 hne2
  have e4 := takeDigits_prepend 4 d2 (s3 ++ (d3 ++ [])) hl2 hd2
  have e5 := eatSpaceOpt_digits [] hs3 hd3 hne3
  have e6 := takeDigits_prepend 2 d3 [] hl3 hd3
  simp only [strictCardPattern, if_true, e1, e2, e3, e4, e5, e6]
  simp

theorem stripWs_core (s1 s2 s3 d1 d2 d3 : List Char)
    (hs1 : ∀ c ∈ s1, jsIsWs c = true) (hs2 : ∀ c ∈ s2, jsIsWs c = true)
    (hs3 : ∀ c ∈ s3, jsIsWs c = true)
    (hd1 : ∀ c ∈ d1, jsIsDigit c = true) (hd2 : ∀ c ∈ d2, jsIsDigit c = true)
    (hd3 : ∀ c ∈ d3, jsIsDigit c = true) :
    stripWs ('V' :: (s1 ++ (d1 ++ (s2 ++ (d2 ++ (s3 ++ d3)))))) = 'V' :: (d1 ++ (d2 ++ d3)) := by
  unfold stripWs
  rw [List.filter_cons, if_pos (by decide), List.filter_append, List.filter_append,
      List.filter_append, List.filter_append, List.filter_append]
  rw [filter_of_all_false s1 (fun c hc => by simp [hs1 c hc]),
      filter_of_all_false s2 (fun c hc => by simp [hs2 c hc]),
      filter_of_all_false s3 (fun c hc => by simp [hs3 c hc]),
      filter_of_all_true d1 (fun c hc => by simp [jsIsWs_of_digit (hd1 c hc)]),
      filter_of_all_true d2 (fun c hc => by simp [jsIsWs_of_digit (hd2 c hc)]),
      filter_of_all_true d3 (fun c hc => by simp [jsIsWs_of_digit (hd3 c hc)])]
  simp

theorem map_upper_optSpace {s : List Char} (hs : s = [] ∨ s = [' ']) :
    s.map jsUpperChar = s := by
  rcases hs with rfl | rfl <;> decide

/-- C10: in the strict-profile `validateCardNumber`, once the leading
format-pattern test has passed, the digits-only check and the ten-digit
length check can never fail (the function then returns the success result),
and every result of the function carries at most one error message. -/
theorem C10_single_error (cs : List Char) :
    (strictCardPattern (jsToUpper (jsTrim cs)) = true →
      validateCardNumber cs =
        { isValid := true, errors := []
        , cleanValue := some (stripWs (jsToUpper (jsTrim cs))), fileInfo := none })
    ∧ (validateCardNumber cs).errors.length ≤ 1 := by
  constructor
  · intro h
    exact validateCardNumber_success h
  · simp only [validateCardNumber]
    split
    · simp
    · split
      · simp
      · split
        · simp
        · split
          · simp
          · simp

/-- Witness for C10 at the concrete input `"V0074266698"`. -/
theorem C10_single_error_witness :
    strictCardPattern (jsToUpper (jsTrim "V0074266698".toList)) = true
    ∧ validateCardNumber "V0074266698".toList =
        { isValid := true, errors := []
        , cleanValue := some (stripWs (jsToUpper (jsTrim "V0074266698".toList)))
        , fileInfo := none }
    ∧ (validateCardNumber "V0074266698".toList).errors.length ≤ 1 :=
  ⟨by decide, (C10_single_error "V0074266698".toList).1 (by decide),
    (C10_single_error "V0074266698".toList).2⟩

/-- C3: every string of the shape whitespace, a leading `V` or `v`, ten
digits in 4-4-2 groups separated by optional single spaces, then whitespace,
validates with `isValid = true`, no errors, and a `cleanValue` equal to the
trimmed, uppercased input with all internal spaces stripped — in particular
`cleanValue` contains no whitespace. -/
theorem C3_valid_card_numbers
    (pre post s1 s2 s3 d1 d2 d3 : List Char) (v : Char)
    (hpre : ∀ c ∈ pre, jsIsWs c = true) (hpost : ∀ c ∈ post, jsIsWs c = true)
    (hv : v = 'V' ∨ v = 'v')
    (hs1 : s1 = [] ∨ s1 = [' ']) (hs2 : s2 = [] ∨ s2 = [' ']) (hs3 : s3 = [] ∨ s3 = [' '])
    (hd1 : ∀ c ∈ d1, jsIsDigit c = true) (hl1 : d1.length = 4)
    (hd2 : ∀ c ∈ d2, jsIsDigit c = true) (hl2 : d2.length = 4)
    (hd3 : ∀ c ∈ d3, jsIsDigit c = true) (hl3 : d3.length = 2) :
    validateCardNumber (pre ++ (v :: (s1 ++ (d1 ++ (s2 ++ (d2 ++ (s3 ++ d3)))))) ++ post) =
      { isValid := true, errors := []
      , cleanValue := some ('V' :: (d1 ++ (d2 ++ d3))), fileInfo := none }
    ∧ ('V' :: (d1 ++ (d2 ++ d3))).all (fun c => !jsIsWs c) = true := by
  obtain ⟨a, b, rfl⟩ : ∃ a b, d3 = [a, b] := by
    rcases d3 with _ | ⟨a, _ | ⟨b, _ | ⟨x, t⟩⟩⟩ <;> simp at hl3
    exact ⟨a, b, rfl⟩
  have hvws : jsIsWs v = false := by rcases hv with rfl | rfl <;> decide
  have hbws : jsIsWs b = false := jsIsWs_of_digit (hd3 b (by simp))
  have hmid : s1 ++ (d1 ++ (s2 ++ (d2 ++ (s3 ++ [a, b]))))
      = (s1 ++ (d1 ++ (s2 ++ (d2 ++ (s3 ++ [a]))))) ++ [b] := by
    simp
  have htrim : jsTrim (pre ++ (v :: (s1 ++ (d1 ++ (s2 ++ (d2 ++ (s3 ++ [a, b])))))) ++ post)
      = v :: (s1 ++ (d1 ++ (s2 ++ (d2 ++ (s3 ++ [a, b]))))) := by
    have hsand := jsTrim_sandwich pre (s1 ++ (d1 ++ (s2 ++ (d2 ++ (s3 ++ [a]))))) post v b
      hpre hpost hvws hbws
    rw [← hmid] at hsand
    exact hsand
  have hvup : jsUpperChar v = 'V' := by rcases hv with rfl | rfl <;> decide
  have hupper : jsToUpper (v :: (s1 ++ (d1 ++ (s2 ++ (d2 ++ (s3 ++ [a, b]))))))
      = 'V' :: (s1 ++ (d1 ++ (s2 ++ (d2 ++ (s3 ++ [a, b]))))) := by
    unfold jsToUpper
    rw [List.map_cons, hvup, List.map_append, List.map_append, List.map_append,
        List.map_append, List.map_append,
        map_upper_optSpace hs1, map_upper_optSpace hs2, map_upper_optSpace hs3,
        map_upper_digits hd1, map_upper_digits hd2, map_upper_digits hd3]
  have hpat : strictCardPattern ('V' :: (s1 ++ (d1 ++ (s2 ++ (d2 ++ (s3 ++ [a, b])))))) = true :=
    strictCardPattern_complete s1 s2 s3 d1 d2 [a, b] hs1 hs2 hs3 hd1 hl1 hd2 hl2 hd3 hl3
  have hp : strictCardPattern (jsToUpper (jsTrim
      (pre ++ (v :: (s1 ++ (d1 ++ (s2 ++ (d2 ++ (s3 ++ [a, b])))))) ++ post))) = true := by
    rw [htrim, hupper]
    exact hpat
  have hres := validateCardNumber_success hp
  have hclean : stripWs (jsToUpper (jsTrim
      (pre ++ (v :: (s1 ++ (d1 ++ (s2 ++ (d2 ++ (s3 ++ [a, b])))))) ++ post)))
      = 'V' :: (d1 ++ (d2 ++ [a, b])) := by
    rw [htrim, hupper]
    exact stripWs_core s1 s2 s3 d1 d2 [a, b]
      (fun c hc => by rcases hs1 with rfl | rfl <;> simp at hc <;> subst hc <;> decide)
      (fun c hc => by rcases hs2 with rfl | rfl <;> simp at hc <;> subst hc <;> decide)
      (fun c hc => by rcases hs3 with rfl | rfl <;> simp at hc <;> subst hc <;> decide)
      hd1 hd2 hd3
  constructor
  · rw [hres, hclean]
  · refine List.all_eq_true.mpr ?_
    intro x hx
    rcases List.mem_cons.mp hx with rfl | hx
    · decide
    · rcases List.mem_append.mp hx with h | h
      · simp [jsIsWs_of_digit (hd1 x h)]
      · rcases List.mem_append.mp h with h | h
        · simp [jsIsWs_of_digit (hd2 x h)]
        · simp [jsIsWs_of_digit (hd3 x h)]

/-- Witness for C3: the concrete input `"  v 0074 2666 98 "` (surrounding
whitespace, lower-case v, 4-4-2 grouping). -/
theorem C3_valid_card_numbers_witness :
    validateCardNumber "  v 0074 2666 98 ".toList =
      { isValid := true, errors := []
      , cleanValue := some "V0074266698".toList, fileInfo := none }
    ∧ "V0074266698".toList.all (fun c => !jsIsWs c) = true := by
  have h := C3_valid_card_numbers [' ', ' '] [' '] [' '] [' '] [' ']
    "0074".toList "2666".toList "98".toList 'v'
    (by decide) (by decide) (Or.inr rfl) (Or.inr rfl) (Or.inr rfl) (Or.inr rfl)
    (by decide) (by decide) (by decide) (by decide) (by decide) (by decide)
  have he : [' ', ' '] ++ ('v' :: ([' '] ++ ("0074".toList ++ ([' '] ++ ("2666".toList
      ++ ([' '] ++ "98".toList)))))) ++ [' '] = "  v 0074 2666 98 ".toList := by decide
  have hc : ('V' :: ("0074".toList ++ ("2666".toList ++ "98".toList)))
      = "V0074266698".toList := by decide
  rw [he, hc] at h
  exact h

/-! ## Formatter lemmas -/

theorem filter_cardKeep_digits (d : List Char) (hd : ∀ c ∈ d, jsIsDigit c = true) :
    d.filter (fun c => c = 'V' || c = 'v' || jsIsDigit c) = d :=
  filter_of_all_true d (fun c hc => by simp [hd c hc])

theorem jsCleanCard_groupDigits {d : List Char} (hd : ∀ c ∈ d, jsIsDigit c = true) :
    jsCleanCard (groupDigits d) = 'V' :: d := by
  have htake : ∀ n, ∀ c ∈ d.take n, jsIsDigit c = true :=
    fun n c hc => hd c (List.mem_of_mem_take hc)
  have hdrop : ∀ n, ∀ c ∈ d.drop n, jsIsDigit c = true :=
    fun n c hc => hd c (List.mem_of_mem_drop hc)
  have hdroptake : ∀ c ∈ (d.drop 4).take 4, jsIsDigit c = true :=
    fun c hc => hdrop 4 c (List.mem_of_mem_take hc)
  have hVup : jsUpperChar 'V' = 'V' := by decide
  unfold groupDigits
  split
  · unfold jsCleanCard jsToUpper
    rw [List.filter_cons, if_pos (by decide), List.filter_cons, if_neg (by decide),
        filter_cardKeep_digits d hd]
    rw [List.map_cons, map_upper_digits hd, hVup]
  · split
    · unfold jsCleanCard jsToUpper
      rw [List.filter_cons, if_pos (by decide), List.filter_cons, if_neg (by decide),
          List.filter_append, List.filter_cons, if_neg (by decide),
          filter_cardKeep_digits (d.take 4) (htake 4),
          filter_cardKeep_digits (d.drop 4) (hdrop 4)]
      rw [List.map_cons, List.map_append, map_upper_digits (htake 4),
          map_upper_digits (hdrop 4), hVup, List.take_append_drop]
    · unfold jsCleanCard jsToUpper
      rw [List.filter_cons, if_pos (by decide), List.filter_cons, if_neg (by decide),
          List.filter_append, List.filter_cons, if_neg (by decide),
          List.filter_append, List.filter_cons, if_neg (by decide),
          filter_cardKeep_digits (d.take 4) (htake 4),
          filter_cardKeep_digits ((d.drop 4).take 4) hdroptake,
          filter_cardKeep_digits (d.drop 8) (hdrop 8)]
      rw [List.map_cons, List.map_append, List.map_append, map_upper_digits (htake 4),
          map_upper_digits hdroptake, map_upper_digits (hdrop 8), hVup]
      have h8 : d.drop 8 = (d.drop 4).drop 4 := by
        rw [List.drop_drop]
      rw [h8, List.take_append_drop, List.take_append_drop]

theorem formatCardNumberInput_groupDigits {d : List Char}
    (hd : ∀ c ∈ d, jsIsDigit c = true) (hlen : d.length ≤ 10) :
    formatCardNumberInput (groupDigits d) = groupDigits d := by
  unfold formatCardNumberInput
  rw [jsCleanCard_groupDigits hd]
  dsimp only
  rw [if_pos (show ('V' :: d).head? = some 'V' from rfl)]
  rw [show List.drop 1 ('V' :: d) = d from rfl]
  rw [List.take_of_length_le hlen]

/-- C9: `formatCardNumberInput` is idempotent on already-correctly-formatted
input — every string in the grouped display format (a leading `V`, a space,
and up to ten digits in 4-4-2 chunks) satisfies `format (format x) = format x`. -/
theorem C9_format_idempotent (x : List Char)
    (h : ∃ d, (∀ c ∈ d, jsIsDigit c = true) ∧ d.length ≤ 10 ∧ x = groupDigits d) :
    formatCardNumberInput (formatCardNumberInput x) = formatCardNumberInput x := by
  obtain ⟨d, hd, hlen, rfl⟩ := h
  simp only [formatCardNumberInput_groupDigits hd hlen]

/-- Witness for C9 at the fully-formatted input `"V 0074 2666 98"`. -/
theorem C9_format_idempotent_witness :
    (∃ d, (∀ c ∈ d, jsIsDigit c = true) ∧ d.length ≤ 10
      ∧ "V 0074 2666 98".toList = groupDigits d)
    ∧ formatCardNumberInput (formatCardNumberInput "V 0074 2666 98".toList)
        = formatCardNumberInput "V 0074 2666 98".toList :=
  ⟨⟨"0074266698".toList, by decide, by decide, by decide⟩,
    C9_format_idempotent "V 0074 2666 98".toList
      ⟨"0074266698".toList, by decide, by decide, by decide⟩⟩

/-! ## Mask (C4) -/

/-- Counterexample to C4 as stated: on the profile-(a) number
`"V0074266698"`, `maskCardNumber` returns the grouped display form with all
ten digits fully visible — nothing is hidden (no mask character appears, and
filtering the result for digits returns the complete card number). -/
theorem C4_mask_counterexample :
    maskCardNumber "V0074266698".toList = "V 0074 2666 98".toList
    ∧ "V 0074 2666 98".toList.filter jsIsDigit = "0074266698".toList
    ∧ "V 0074 2666 98".toList.contains '*' = false := by
  refine ⟨?_, by decide, by decide⟩
  decide

/-- C4 (amended): for every profile-(a) card number (space-stripped form
`'V'` followed by exactly ten digits) the masking function returns the
grouped 4-4-2 display form with the digits fully visible, not hidden; every
input of length below 6 is returned unmodified. -/
theorem C4_mask_behavior :
    (∀ (cardNumber d : List Char), (∀ c ∈ d, jsIsDigit c = true) → d.length = 10 →
      stripWs cardNumber = 'V' :: d → 6 ≤ cardNumber.length →
      maskCardNumber cardNumber =
        'V' :: ' ' :: (d.take 4 ++ ' ' :: ((d.drop 4).take 4 ++ ' ' :: d.drop 8)))
    ∧ (∀ cardNumber : List Char, cardNumber.length < 6 →
        maskCardNumber cardNumber = cardNumber) := by
  constructor
  · intro cardNumber d hd hlen hstrip hlong
    have hne : cardNumber.isEmpty = false := by
      rcases cardNumber with _ | ⟨c, t⟩
      · simp at hlong
      · rfl
    have hnlt : ¬cardNumber.length < 6 := by omega
    unfold maskCardNumber
    rw [hne]
    simp only [Bool.false_or, decide_eq_true_eq]
    rw [if_neg hnlt, hstrip]
    rw [if_pos ⟨rfl, by simp [hlen]⟩]
    rfl
  · intro cardNumber hlen
    unfold maskCardNumber
    rcases cardNumber with _ | ⟨c, t⟩
    · rfl
    · rw [if_pos ?_]
      simp only [List.length_cons] at hlen
      simp
      omega

/-- Witness for the amended C4 at the concrete input `"V 0074 2666 98"`. -/
theorem C4_mask_behavior_witness :
    maskCardNumber "V 0074 2666 98".toList = "V 0074 2666 98".toList := by
  have h := C4_mask_behavior.1 "V 0074 2666 98".toList "0074266698".toList
    (by decide) (by decide) (by decide) (by decide)
  rw [h]
  decide

/-! ## File validation (C7) -/

/-- C7: a null file is rejected immediately with exactly the "file required"
message and no other check contributes; on a non-null file the size check
(5 MiB), the MIME-type check and the case-insensitive extension check all
run — each failing check contributes exactly its own message, independently
of the others — and the result is valid exactly when no error accumulated. -/
theorem C7_file_validation :
    validateCardFile none =
      { isValid := false, errors := [msgFileRequired], cleanValue := none, fileInfo := none }
    ∧ ∀ f : JsFile,
        (msgFileTooLarge ∈ (validateCardFile (some f)).errors ↔ fileUploadMaxSize < f.size)
        ∧ (msgFileType ∈ (validateCardFile (some f)).errors ↔ f.type ∉ allowedMimeTypes)
        ∧ (msgFileExtension ∈ (validateCardFile (some f)).errors
            ↔ fileExtensionOf f.name ∉ allowedExtensions)
        ∧ ((validateCardFile (some f)).isValid = true ↔ (validateCardFile (some f)).errors = []) := by
  have d12 : msgFileTooLarge ≠ msgFileType := by decide
  have d13 : msgFileTooLarge ≠ msgFileExtension := by decide
  have d21 : msgFileType ≠ msgFileTooLarge := by decide
  have d23 : msgFileType ≠ msgFileExtension := by decide
  have d31 : msgFileExtension ≠ msgFileTooLarge := by decide
  have d32 : msgFileExtension ≠ msgFileType := by decide
  refine ⟨rfl, fun f => ?_⟩
  by_cases hs : f.size > fileUploadMaxSize <;>
    by_cases ht : f.type ∈ allowedMimeTypes <;>
    by_cases he : fileExtensionOf f.name ∈ allowedExtensions <;>
    simp [validateCardFile, hs, ht, he, d12, d13, d21, d23, d31, d32]

/-- Witness for C7: a 6-byte-over-the-limit PDF fails the size check. -/
theorem C7_file_validation_witness :
    msgFileTooLarge ∈
      (validateCardFile (some { name := "carte.pdf".toList, size := 6291457
                              , type := "application/pdf" })).errors :=
  ((C7_file_validation.2
    { name := "carte.pdf".toList, size := 6291457, type := "application/pdf" }).1).mpr
    (by decide)

/-! ## Compression dimensions (C6) -/

theorem floor_scaled_le (w m : Nat) (r : ℚ) (hw : 1 ≤ w) (hr1 : r ≤ 1)
    (hrm : r ≤ (m : ℚ) / (w : ℚ)) :
    Int.toNat ⌊(w : ℚ) * r⌋ ≤ m ∧ Int.toNat ⌊(w : ℚ) * r⌋ ≤ w := by
  have hw0 : (0 : ℚ) < (w : ℚ) := by exact_mod_cast hw
  have h1 : (w : ℚ) * r ≤ (m : ℚ) := by
    calc (w : ℚ) * r ≤ (w : ℚ) * ((m : ℚ) / (w : ℚ)) :=
          mul_le_mul_of_nonneg_left hrm (le_of_lt hw0)
    _ = (m : ℚ) := mul_div_cancel₀ (m : ℚ) (ne_of_gt hw0)
  have h2 : (w : ℚ) * r ≤ (w : ℚ) := by
    calc (w : ℚ) * r ≤ (w : ℚ) * 1 := mul_le_mul_of_nonneg_left hr1 (le_of_lt hw0)
    _ = (w : ℚ) := mul_one _
  constructor
  · rw [Int.toNat_le]
    calc ⌊(w : ℚ) * r⌋ ≤ ⌊(m : ℚ)⌋ := Int.floor_le_floor h1
    _ = (m : ℤ) := Int.floor_natCast m
  · rw [Int.toNat_le]
    calc ⌊(w : ℚ) * r⌋ ≤ ⌊(w : ℚ)⌋ := Int.floor_le_floor h2
    _ = (w : ℤ) := Int.floor_natCast w

/-- C6: for every source image of positive dimensions and every
configuration, the canvas dimensions computed by `compressImage` never
exceed the configured maxima (default 1200) and never exceed the source
dimensions — the uniform ratio `min(1, maxWidth/w, maxHeight/h)` never
upscales. -/
theorem C6_compress_bounds (naturalWidth naturalHeight : Nat)
    (options : CompressOptions) (hw : 1 ≤ naturalWidth) (hh : 1 ≤ naturalHeight) :
    (compressImageTargetSize naturalWidth naturalHeight options).1
        ≤ options.maxWidth.getD 1200
    ∧ (compressImageTargetSize naturalWidth naturalHeight options).2
        ≤ options.maxHeight.getD 1200
    ∧ (compressImageTargetSize naturalWidth naturalHeight options).1 ≤ naturalWidth
    ∧ (compressImageTargetSize naturalWidth naturalHeight options).2 ≤ naturalHeight := by
  unfold compressImageTargetSize
  have hwb := floor_scaled_le naturalWidth (options.maxWidth.getD 1200)
    (min 1 (min ((options.maxWidth.getD 1200 : Nat) / (naturalWidth : ℚ))
      ((options.maxHeight.getD 1200 : Nat) / (naturalHeight : ℚ)))) hw
    (min_le_left _ _)
    (le_trans (min_le_right _ _) (min_le_left _ _))
  have hhb := floor_scaled_le naturalHeight (options.maxHeight.getD 1200)
    (min 1 (min ((options.maxWidth.getD 1200 : Nat) / (naturalWidth : ℚ))
      ((options.maxHeight.getD 1200 : Nat) / (naturalHeight : ℚ)))) hh
    (min_le_left _ _)
    (le_trans (min_le_right _ _) (min_le_right _ _))
  exact ⟨hwb.1, hhb.1, hwb.2, hhb.2⟩

/-- Witness for C6: a 1600×900 source with the default configuration renders
within 1200×1200 and below the source size. -/
theorem C6_compress_bounds_witness :
    (1 ≤ 1600 ∧ 1 ≤ 900)
    ∧ (compressImageTargetSize 1600 900
        { maxWidth := none, maxHeight := none, quality := none, mimeType := none }).1 ≤ 1200
    ∧ (compressImageTargetSize 1600 900
        { maxWidth := none, maxHeight := none, quality := none, mimeType := none }).2 ≤ 1200
    ∧ (compressImageTargetSize 1600 900
        { maxWidth := none, maxHeight := none, quality := none, mimeType := none }).1 ≤ 1600
    ∧ (compressImageTargetSize 1600 900
        { maxWidth := none, maxHeight := none, quality := none, mimeType := none }).2 ≤ 900 :=
  ⟨⟨by decide, by decide⟩,
    C6_compress_bounds 1600 900
      { maxWidth := none, maxHeight := none, quality := none, mimeType := none }
      (by decide) (by decide)⟩

/-! ## Adapter error mapping (C2, C5) -/

/-- Counterexample to C2 as stated: `getCandidates` receiving an HTTP 500
response propagates an error whose `status` is `0`, not `500` — the non-OK
branch throws a plain `Error` that carries no `response` object, so the
generic mapper cannot recover the received HTTP status. -/
theorem C2_error_mapping_counterexample :
    getCandidates (.response 500 "Internal Server Error"
      { success := false, data := [], generated_at := "" })
      = .error { status := 0, message := "Erreur lors du chargement des candidats", data := none }
    ∧ (0 : Nat) ≠ 500 :=
  ⟨rfl, by decide⟩

/-- C2 (amended): every adapter failure propagates a `{status, message,
data}` object; `message` is the body message when present and non-empty,
else the exception message, else the generic fallback, and `data` is the
response body or null — but `status` equals the received HTTP status only on
`submitVote`'s response-carrying failure path: `getCandidates`,
`getCandidateById` and `checkEligibility` convert non-OK responses into
plain exceptions and always propagate `status = 0`, even when an HTTP
response was received. -/
theorem C2_error_mapping :
    (∀ m, getCandidates (.networkError m) =
      .error { status := 0, message := jsTruthyOr m "Erreur inconnue", data := none })
    ∧ (∀ status stext body, jsOk status = false →
      getCandidates (.response status stext body) =
        .error { status := 0, message := "Erreur lors du chargement des candidats", data := none })
    ∧ (∀ cid m, getCandidateById cid (.networkError m) =
      .error { status := 0, message := jsTruthyOr m "Erreur inconnue", data := none })
    ∧ (∀ cid status stext body, jsOk status = false →
      getCandidateById cid (.response status stext body) =
        .error { status := 0, message := "Candidat non trouvé", data := none })
    ∧ (∀ card name m, checkEligibility card name (.networkError m) =
      .error { status := 0, message := jsTruthyOr m "Erreur inconnue", data := none })
    ∧ (∀ card name status stext body, jsOk status = false →
      checkEligibility card name (.response status stext body) =
        .error { status := 0
               , message := "HTTP " ++ toString status ++ ": " ++ stext, data := none })
    ∧ (∀ card name status stext body, jsOk status = true → body.success = false →
      checkEligibility card name (.response status stext body) =
        .error { status := 0
               , message := jsTruthyOr body.data.message "Erreur lors de la vérification"
               , data := none })
    ∧ (∀ card name cid m, submitVote card name cid (.networkError m) =
      .error (.apiFailure { status := 0, message := jsTruthyOr m "Erreur inconnue", data := none }))
    ∧ (∀ card name cid status stext body, status ≠ 422 →
      (jsOk status = false ∨ body.success = false) →
      submitVote card name cid (.response status stext body) =
        .error (.apiFailure { status := status
                            , message := jsTruthyOr body.message "Erreur inconnue"
                            , data := some body }))
    ∧ (∀ card name cid stext body fieldErrors, body.errors = some fieldErrors →
      submitVote card name cid (.response 422 stext body) =
        .error (.apiFailure { status := 422
                            , message := String.intercalate ", " (flattenFieldErrors fieldErrors)
                            , data := some body })) := by
  have hhttpne : ∀ (status : Nat) (stext : String),
      ("HTTP " ++ toString status ++ ": " ++ stext) ≠ "" := by
    intro status stext he
    have := congrArg String.length he
    simp [String.length_append] at this
    exact absurd this.1.1.1 (by decide)
  refine ⟨?_, ?_, ?_, ?_, ?_, ?_, ?_, ?_, ?_, ?_⟩
  · intro m
    rfl
  · intro status stext body hok
    simp [getCandidates, hok, handleApiError, candidatesBodyMessage, jsTruthyOrOpt, jsTruthyOr]
  · intro cid m
    rfl
  · intro cid status stext body hok
    simp [getCandidateById, hok, handleApiError, candidateByIdBodyMessage, jsTruthyOrOpt, jsTruthyOr]
  · intro card name m
    rfl
  · intro card name status stext body hok
    simp only [checkEligibility, hok, Bool.false_eq_true, if_false]
    simp [handleApiError, eligBodyMessage, jsTruthyOrOpt, jsTruthyOr, hhttpne status stext]
  · intro card name status stext body hok hsucc
    simp only [checkEligibility, hok, hsucc, Bool.false_eq_true, if_false, if_true]
    by_cases hm : body.data.message = "" <;>
      simp [handleApiError, eligBodyMessage, jsTruthyOrOpt, jsTruthyOr, hm]
  · intro card name cid m
    rfl
  · intro card name cid status stext body hne hfail
    have hcond : (jsOk status = false || body.success = false) = true := by
      rcases hfail with h | h <;> simp [h]
    simp only [submitVote, hcond, if_true]
    simp [submitVoteCatch, hne, handleApiError, voteBodyMessage, jsTruthyOrOpt, jsTruthyOr]
  · intro card name cid stext body fieldErrors herr
    have hok : jsOk 422 = false := by decide
    simp only [submitVote, hok, Bool.false_eq_true, Bool.false_or]
    by_cases hsucc : body.success = false
    · simp [hsucc, submitVoteCatch, herr]
    · have hsucc' : body.success = true := by
        rcases hb : body.success
        · exact absurd hb hsucc
        · rfl
      simp [hsucc', submitVoteCatch, herr]

/-- Witness for the amended C2: `getCandidateById` receiving HTTP 404 fails
with status 0 and the "not found" message. -/
theorem C2_error_mapping_witness :
    jsOk 404 = false
    ∧ getCandidateById 7 (.response 404 "Not Found"
        { data := { id := 7, name := "", party := "", photo_url := ""
                  , order_number := 1, description := none } })
      = .error { status := 0, message := "Candidat non trouvé", data := none } :=
  ⟨by decide,
    C2_error_mapping.2.2.2.1 7 404 "Not Found"
      { data := { id := 7, name := "", party := "", photo_url := ""
                , order_number := 1, description := none } } (by decide)⟩

/-- C5: whenever `submitVote` receives an HTTP 422 response whose body
carries a per-field error map, it fails with status 422 and a single message
that is the comma-joined concatenation of all messages of all fields; on a
network failure, and on any response failure whose status is not 422, it
falls back to the generic error mapper `handleApiError`. -/
theorem C5_submit_422 :
    (∀ (card name : String) (cid : Nat) (stext : String) (body : VoteBody)
        (fieldErrors : List (String × List String)),
      body.errors = some fieldErrors →
      submitVote card name cid (.response 422 stext body) =
        .error (.apiFailure { status := 422
                            , message := String.intercalate ", " (flattenFieldErrors fieldErrors)
                            , data := some body }))
    ∧ (∀ (card name : String) (cid : Nat) (m : String),
      submitVote card name cid (.networkError m) =
        .error (.apiFailure (handleApiError voteBodyMessage
          { response := none, message := some m })))
    ∧ (∀ (card name : String) (cid status : Nat) (stext : String) (body : VoteBody),
      status ≠ 422 → (jsOk status = false ∨ body.success = false) →
      submitVote card name cid (.response status stext body) =
        .error (.apiFailure (handleApiError voteBodyMessage
          { response := some { status := status, data := some body }, message := none }))) := by
  refine ⟨?_, ?_, ?_⟩
  · intro card name cid stext body fieldErrors herr
    have hok : jsOk 422 = false := by decide
    simp only [submitVote, hok, Bool.false_eq_true, Bool.false_or]
    by_cases hsucc : body.success = false
    · simp [hsucc, submitVoteCatch, herr]
    · have hsucc' : body.success = true := by
        rcases hb : body.success
        · exact absurd hb hsucc
        · rfl
      simp [hsucc', submitVoteCatch, herr]
  · intro card name cid m
    rfl
  · intro card name cid status stext body hne hfail
    have hcond : (jsOk status = false || body.success = false) = true := by
      rcases hfail with h | h <;> simp [h]
    simp only [submitVote, hcond, if_true]
    simp [submitVoteCatch, hne]

/-- Witness for C5: the spec's example 422 body
`{errors: {candidate_id: ["required"], voter_card_number: ["invalid"]}}`
yields the single message `"required, invalid"`, containing both flattened
strings. -/
theorem C5_submit_422_witness :
    (some [("candidate_id", ["required"]), ("voter_card_number", ["invalid"])]
        : Option (List (String × List String)))
      = some [("candidate_id", ["required"]), ("voter_card_number", ["invalid"])]
    ∧ submitVote "V0074266698" "Jean" 1 (.response 422 "Unprocessable Content"
        { success := false, message := "The given data was invalid.", vote_id := ""
        , voted_at := ""
        , errors := some [("candidate_id", ["required"]), ("voter_card_number", ["invalid"])] })
      = .error (.apiFailure
        { status := 422
        , message := "required, invalid"
        , data := some
            { success := false
            , message := "The given data was invalid."
            , vote_id := ""
            , voted_at := ""
            , errors := some [("candidate_id", ["required"]), ("voter_card_number", ["invalid"])] } }) := by
  refine ⟨rfl, ?_⟩
  have h := C5_submit_422.1 "V0074266698" "Jean" 1 "Unprocessable Content"
    { success := false, message := "The given data was invalid.", vote_id := ""
    , voted_at := ""
    , errors := some [("candidate_id", ["required"]), ("voter_card_number", ["invalid"])] }
    [("candidate_id", ["required"]), ("voter_card_number", ["invalid"])] rfl
  rw [h]
  rfl

/-! ## Store state machine (C1, C8) -/

theorem storeCheckEligibility_frame (s : VoteState) (r : Outcome EligStatus) :
    (storeCheckEligibility s r).1.currentStep = s.currentStep
    ∧ (storeCheckEligibility s r).1.voterCardImage = s.voterCardImage
    ∧ (storeCheckEligibility s r).1.selectedCandidateId = s.selectedCandidateId := by
  rcases r with v | m
  · by_cases hv : v.eligible = false <;> simp [storeCheckEligibility, hv]
  · simp [storeCheckEligibility]

theorem invariant_cast {w w' : StoreWorld}
    (hstep : w'.state.currentStep = w.state.currentStep)
    (himg : w'.state.voterCardImage = w.state.voterCardImage)
    (hsel : w'.state.selectedCandidateId = w.state.selectedCandidateId)
    (hg : w'.ghost = w.ghost)
    (ih : voteStepInvariant w) : voteStepInvariant w' := by
  unfold voteStepInvariant at ih ⊢
  rw [hstep, himg, hsel, hg]
  exact ih

/-- Counterexample to C1 as stated: the single action `setStep SUCCESS`,
available from the initial state, reaches the `SUCCESS` step although no
submission response (successful or otherwise) was ever received, and hence
the reachable-state invariant claimed for the full action set is false. -/
theorem C1_state_machine_counterexample :
    Reachable (applyAction initialStore (.setStepAct .SUCCESS))
    ∧ (applyAction initialStore (.setStepAct .SUCCESS)).state.currentStep = .SUCCESS
    ∧ (applyAction initialStore (.setStepAct .SUCCESS)).ghost.submitSucceeded = false
    ∧ ¬ claimedInvariant (applyAction initialStore (.setStepAct .SUCCESS)) := by
  refine ⟨Reachable.step initialStore (.setStepAct .SUCCESS) Reachable.init, rfl, rfl, ?_⟩
  intro hinv
  have h3 := hinv.2.2 rfl
  exact absurd h3 (by decide)

/-- C1 (amended): for every state reachable from the initial state by any
sequence of store actions other than the unconditional navigations `setStep`
and `backToVote`: in the `VOTE` step a card image is stored and an eligible
verification has succeeded since the last reset; in the `CONFIRMATION` step
a candidate id is selected (it need not occur in the cached candidate list);
in the `SUCCESS` step a successful submission response was received since
the last reset. -/
theorem C1_state_machine_invariant (w : StoreWorld) (h : ReachableGuarded w) :
    voteStepInvariant w := by
  induction h with
  | init =>
    unfold voteStepInvariant
    refine ⟨?_, ?_, ?_⟩ <;> intro hc <;> simp [initialStore] at hc
  | step w a h ha ih =>
    cases a with
    | checkEligibilityAct cardNum result =>
      have hf := storeCheckEligibility_frame w.state result
      exact invariant_cast hf.1 hf.2.1 hf.2.2 rfl ih
    | saveVerificationDataAct cardNum cardImg result =>
      show voteStepInvariant (saveVerificationData w cardNum cardImg result)
      unfold saveVerificationData
      by_cases hch :
          (storeCheckEligibility { w.state with isLoading := true, error := none } result).2 = true
      · rw [if_pos hch]
        unfold voteStepInvariant
        refine ⟨fun _ => ⟨by simp, rfl⟩, ?_, ?_⟩ <;> intro hc <;> simp at hc
      · rw [if_neg hch]
        have hf := storeCheckEligibility_frame
          { w.state with isLoading := true, error := none } result
        exact invariant_cast hf.1 hf.2.1 hf.2.2 rfl ih
    | loadCandidatesAct result =>
      rcases result with lst | m
      · exact invariant_cast rfl rfl rfl rfl ih
      · exact invariant_cast rfl rfl rfl rfl ih
    | selectCandidateAct candidateId =>
      unfold voteStepInvariant at ih ⊢
      exact ⟨ih.1, fun _ hc => Option.noConfusion hc, ih.2.2⟩
    | goToConfirmationAct =>
      rcases hsel : w.state.selectedCandidateId with _ | id
      · have hred : applyAction w .goToConfirmationAct
            = { w with state := { w.state with
                error := some "Veuillez sélectionner un candidat" } } := by
          simp [applyAction, goToConfirmation, hsel]
        rw [hred]
        exact invariant_cast rfl rfl rfl rfl ih
      · have hred : applyAction w .goToConfirmationAct
            = { w with state := { w.state with currentStep := .CONFIRMATION, error := none } } := by
          simp [applyAction, goToConfirmation, hsel]
        rw [hred]
        unfold voteStepInvariant
        refine ⟨?_, fun _ => ?_, ?_⟩
        · intro hc; simp at hc
        · show w.state.selectedCandidateId ≠ none
          rw [hsel]
          simp
        · intro hc; simp at hc
    | backToVoteAct => exact absurd ha (by decide)
    | submitVoteAct result =>
      show voteStepInvariant (storeSubmitVote w result)
      unfold storeSubmitVote
      by_cases hcs : canSubmitVote w.state = false
      · rw [if_pos hcs]
        exact invariant_cast rfl rfl rfl rfl ih
      · rw [if_neg hcs]
        rcases result with r | m
        · dsimp only
          by_cases hr : r.success = true
          · rw [if_pos hr]
            unfold voteStepInvariant
            refine ⟨?_, ?_, fun _ => rfl⟩ <;> intro hc <;> simp at hc
          · rw [if_neg hr]
            exact invariant_cast rfl rfl rfl rfl ih
        · exact invariant_cast rfl rfl rfl rfl ih
    | resetVoteAct =>
      unfold voteStepInvariant
      refine ⟨?_, ?_, ?_⟩ <;> intro hc <;> simp [applyAction, resetVote] at hc
    | setErrorAct m => exact invariant_cast rfl rfl rfl rfl ih
    | clearErrorAct => exact invariant_cast rfl rfl rfl rfl ih
    | setStepAct s => simp [isGuardedAction] at ha

/-- Witness for the amended C1 at the initial state. -/
theorem C1_state_machine_invariant_witness :
    ReachableGuarded initialStore ∧ voteStepInvariant initialStore :=
  ⟨ReachableGuarded.init, C1_state_machine_invariant initialStore ReachableGuarded.init⟩

/-- C8: `resetVote` returns the machine to `VERIFICATION` and clears the
card number, card image, selected candidate, confirmation number, error,
loading flag and eligibility flag, while the candidate cache is unchanged —
in particular a non-empty cache stays non-empty. -/
theorem C8_reset_frame (w : StoreWorld) :
    (resetVote w).state.currentStep = .VERIFICATION
    ∧ (resetVote w).state.voterCardNumber = ""
    ∧ (resetVote w).state.voterCardImage = none
    ∧ (resetVote w).state.selectedCandidateId = none
    ∧ (resetVote w).state.confirmationNumber = ""
    ∧ (resetVote w).state.error = none
    ∧ (resetVote w).state.isLoading = false
    ∧ (resetVote w).state.isEligible = none
    ∧ (resetVote w).state.candidates = w.state.candidates
    ∧ (w.state.candidates ≠ [] → (resetVote w).state.candidates ≠ []) :=
  ⟨rfl, rfl, rfl, rfl, rfl, rfl, rfl, rfl, rfl, fun hne => hne⟩

/-- Witness for C8: a world in the `SUCCESS` step with one cached candidate
keeps its non-empty cache across `resetVote`. -/
theorem C8_reset_frame_witness :
    (applyAction (loadCandidates initialStore
      (.ok [{ id := 1, name := "Alice Pays", party := "Parti A", photo := "a.png"
            , program := "", biography := none }])) (.setStepAct .SUCCESS)).state.candidates ≠ []
    ∧ (resetVote (applyAction (loadCandidates initialStore
      (.ok [{ id := 1, name := "Alice Pays", party := "Parti A", photo := "a.png"
            , program := "", biography := none }])) (.setStepAct .SUCCESS))).state.candidates ≠ [] :=
  ⟨by decide,
    (C8_reset_frame (applyAction (loadCandidates initialStore
      (.ok [{ id := 1, name := "Alice Pays", party := "Parti A", photo := "a.png"
            , program := "", biography := none }])) (.setStepAct .SUCCESS))).2.2.2.2.2.2.2.2.2
      (by decide)⟩
